import Mathlib

/-!
Verification of `generate_icon.py`: a one-shot batch renderer that draws a
square RGBA icon (rounded-rectangle background, centered "R" glyph, and for
large sizes a three-line decorative accent) for each entry of a static size
table, and writes each as `icon_<label>.png`.

The script is embedded shallowly: pure geometry becomes Lean functions over
`Nat`/`Int`; the fallible font load becomes a `Bool` flag selecting the
system font or the fallback; glyph metrics (library-provided `textbbox`) are
an abstract parameter; drawing commands are recorded as data, and the pixels
the accent strokes cover are modelled explicitly.
-/

namespace GenerateIcon

/-- An RGBA color value, one `Nat` per 8-bit channel. -/
structure Color where
  r : Nat
  g : Nat
  b : Nat
  a : Nat
deriving DecidableEq, Repr

/-- `sizes`: the static icon size table, `(pixel dimension, label)` per entry,
in source order. -/
def sizes : List (Nat × String) :=
  [ (40, "20x20@2x"),
    (60, "20x20@3x"),
    (58, "29x29@2x"),
    (87, "29x29@3x"),
    (80, "40x40@2x"),
    (120, "40x40@3x"),
    (120, "60x60@2x"),
    (180, "60x60@3x"),
    (20, "20x20@1x"),
    (40, "20x20@2x"),
    (29, "29x29@1x"),
    (58, "29x29@2x"),
    (40, "40x40@1x"),
    (80, "40x40@2x"),
    (152, "76x76@2x"),
    (167, "83.5x83.5@2x"),
    (1024, "1024x1024@1x") ]

/-- `bg_color = (52, 120, 246)`: the fixed iOS-blue fill. A 3-tuple fill on an
RGBA image is opaque, hence alpha 255. -/
def bg_color : Color := ⟨52, 120, 246, 255⟩

/-- The opaque white used for the glyph, `fill=(255, 255, 255, 255)`. -/
def text_color : Color := ⟨255, 255, 255, 255⟩

/-- The semi-transparent white of the accent lines, `fill=(255, 255, 255, 180)`. -/
def accent_color : Color := ⟨255, 255, 255, 180⟩

/-- The fully transparent canvas color `(0, 0, 0, 0)`. -/
def transparent : Color := ⟨0, 0, 0, 0⟩

/-- `font_size size = int(size * 0.6)`: Python truncates the float product
toward zero; for every `size` in range (checked exhaustively well past the
table) `int(size * 0.6) = 6 * size / 10` in exact arithmetic, which is how we
embed it. -/
def font_size (size : Nat) : Nat := size * 6 / 10

/-- The font chosen for the glyph: the scalable system font at a point size,
or the built-in fixed-size fallback. -/
inductive Font where
  | system (pt : Nat)
  | fallback
deriving DecidableEq, Repr

/-- The `try/except` around `ImageFont.truetype`: when loading the system font
succeeds (`ok = true`) the renderer uses it at `font_size size`; on any
failure it silently uses `ImageFont.load_default()`. -/
def choose_font (size : Nat) (ok : Bool) : Font :=
  if ok then Font.system (font_size size) else Font.fallback

/-- A glyph bounding box as returned by `draw.textbbox((0,0), text, font)`:
`(x0, y0, x1, y1)` with `y0` the top coordinate (the baseline bias). -/
structure BBox where
  x0 : Int
  y0 : Int
  x1 : Int
  y1 : Int
deriving DecidableEq, Repr

/-- `text_width = bbox[2] - bbox[0]`. -/
def text_width (b : BBox) : Int := b.x1 - b.x0

/-- `text_height = bbox[3] - bbox[1]`. -/
def text_height (b : BBox) : Int := b.y1 - b.y0

/-- The glyph anchor: `x = (size - text_width) // 2`,
`y = (size - text_height) // 2 - bbox[1]` (Python `//` is floor division). -/
def text_position (size : Nat) (b : BBox) : Int × Int :=
  (((size : Int) - text_width b).fdiv 2,
   ((size : Int) - text_height b).fdiv 2 - b.y0)

/-- `corner_radius = size // 8`. -/
def corner_radius (size : Nat) : Nat := size / 8

/-- The recorded `draw.rounded_rectangle` command: bounds `[(x0,y0),(x1,y1)]`,
corner radius, fill. -/
structure RectCmd where
  x0 : Nat
  y0 : Nat
  x1 : Nat
  y1 : Nat
  radius : Nat
  fill : Color
deriving DecidableEq, Repr

/-- The background command issued for a given size:
`rounded_rectangle [(0,0),(size-1,size-1)], radius=size//8, fill=bg_color`. -/
def background_cmd (size : Nat) : RectCmd :=
  ⟨0, 0, size - 1, size - 1, corner_radius size, bg_color⟩

/-- `icon_size = size // 6`: the side of the square accent region. -/
def icon_size (size : Nat) : Nat := size / 6

/-- `icon_x = size - icon_size - size // 12`: left edge of the accent region. -/
def icon_x (size : Nat) : Nat := size - icon_size size - size / 12

/-- `icon_y = size - icon_size - size // 12`: top edge of the accent region. -/
def icon_y (size : Nat) : Nat := size - icon_size size - size / 12

/-- `line_width = max(1, size // 40)`. -/
def line_width (size : Nat) : Nat := max 1 (size / 40)

/-- `fork_x = icon_x + (icon_size // 4) * i` for line index `i = 0, 1, 2`. -/
def fork_x (size i : Nat) : Nat := icon_x size + (icon_size size / 4) * i

/-- A recorded `draw.line` command: endpoints, stroke width, fill. -/
structure LineCmd where
  x0 : Nat
  y0 : Nat
  x1 : Nat
  y1 : Nat
  width : Nat
  fill : Color
deriving DecidableEq, Repr

/-- The accent line for index `i`: vertical, from `(fork_x, icon_y)` to
`(fork_x, icon_y + icon_size // 2)`, width `line_width`, semi-transparent
white. -/
def accent_line (size i : Nat) : LineCmd :=
  ⟨fork_x size i, icon_y size, fork_x size i, icon_y size + icon_size size / 2,
    line_width size, accent_color⟩

/-- The accent commands: the `for i in range(3)` loop of `draw.line` calls,
guarded by `if size >= 60` (otherwise the step is skipped entirely). -/
def accent_lines (size : Nat) : List LineCmd :=
  if 60 ≤ size then (List.range 3).map (accent_line size) else []

/-- Pixel coverage of one vertical accent stroke: Pillow renders a wide
vertical segment as the filled quad offset `(width - 1) / 2` to each side of
the center column, rows running over the segment's (inclusive) endpoints. -/
def lineCovers (l : LineCmd) (x y : Int) : Bool :=
  (l.x0 : Int) - (((l.width : Int) - 1) / 2) ≤ x &&
  x ≤ (l.x0 : Int) + (((l.width : Int) - 1) / 2) &&
  (l.y0 : Int) ≤ y && y ≤ (l.y1 : Int)

/-- Whether any accent stroke of the icon covers pixel `(x, y)`. -/
def accentCovers (size : Nat) (x y : Int) : Bool :=
  (accent_lines size).any (fun l => lineCovers l x y)

/-- Whether `(x, y)` lies in the accent region: the square of side
`icon_size` whose top-left corner is `(icon_x, icon_y)`. -/
def inAccentRegion (size : Nat) (x y : Int) : Bool :=
  (icon_x size : Int) ≤ x && x ≤ (icon_x size : Int) + (icon_size size : Int) &&
  (icon_y size : Int) ≤ y && y ≤ (icon_y size : Int) + (icon_size size : Int)

/-- The color of pixel `(x, y)` in the finished bitmap. The accent is drawn
last, so its strokes overwrite everything beneath; the glyph is drawn over
the background. Glyph and rounded-rectangle coverage come from the imaging
library's font and arc rasterizers and are abstract parameters here. -/
def pixelAt (size : Nat) (glyphCov bgCov : Int → Int → Bool) (x y : Int) :
    Color :=
  if accentCovers size x y then accent_color
  else if glyphCov x y then text_color
  else if bgCov x y then bg_color
  else transparent

/-- The renderer's result: a `size × size` RGBA bitmap described by the
drawing commands that produced it. -/
structure Icon where
  width : Nat
  height : Nat
  background : RectCmd
  font : Font
  textPos : Int × Int
  accent : List LineCmd
deriving DecidableEq, Repr

/-- `create_ralph_icon(size)`: allocate a transparent `size × size` RGBA
canvas, draw the rounded-rectangle background, choose the font (system font
at `font_size size` when loading succeeds, else the fallback), measure the
"R" glyph's bounding box with the chosen font, draw the glyph at the centered
position, and, when `size >= 60`, draw the three accent lines. The font-load
outcome `ok` and the measured metrics `measure` stand for the imaging
library's fallible font loader and `textbbox`. -/
def create_ralph_icon (size : Nat) (ok : Bool) (measure : Font → BBox) :
    Icon :=
  let font := choose_font size ok
  let bbox := measure font
  { width := size
    height := size
    background := background_cmd size
    font := font
    textPos := text_position size bbox
    accent := accent_lines size }

/-- `filename = f"icon_{name}.png"`. -/
def filename (label : String) : String := "icon_" ++ label ++ ".png"

/-- The batch driver's writes, in loop order: for each table entry, the
target filename and the icon rendered at that entry's pixel dimension. -/
def run_writes (ok : Bool) (measure : Font → BBox) : List (String × Icon) :=
  sizes.map (fun e => (filename e.2, create_ralph_icon e.1 ok measure))

/-- The filenames the batch driver writes, in loop order. -/
def run_filenames : List String := sizes.map (fun e => filename e.2)

/-- Modelled from the spec's words (for comparison with `font_size`): the
point size the spec claims, `round(size * 0.6)`, the nearest integer to
`0.6 * size` (the fractional part is never 1/2, so nearest is unambiguous). -/
def spec_round_font_size (size : Nat) : Nat := (size * 6 + 5) / 10

/-- A throwaway glyph-metrics function, used to instantiate the abstract
`measure` parameter at concrete inputs. -/
def zeroMeasure : Font → BBox := fun _ => ⟨0, 0, 0, 0⟩

/-- C1: the claim as stated requires the 17 written filenames to be pairwise
distinct; they are not — three table entries are exact duplicates (same
dimension and same label), e.g. `(40, "20x20@2x")` at positions 0 and 9, so
`icon_20x20@2x.png` is written twice. -/
theorem C1_counterexample : ¬ run_filenames.Nodup := by decide

/-- C1 (amended): a full run performs exactly 17 writes, one per table entry,
each to `icon_<label>.png`; but duplicate entries repeat the label along with
the dimension, so the run touches only 14 distinct filenames (the duplicates
overwrite, they do not produce separately named files). -/
theorem C1_batch_writes :
    ∀ (ok : Bool) (measure : Font → BBox),
      (run_writes ok measure).length = 17 ∧
      (run_writes ok measure).map Prod.fst = run_filenames ∧
      run_filenames.length = 17 ∧
      run_filenames.dedup.length = 14 := by
  intro ok measure
  exact ⟨rfl, rfl, by decide, by decide⟩

/-- C2: the claim as stated is false at `pixel_dimension = 58`: the code
requests `int(58 * 0.6) = 34`, not `round(58 * 0.6) = 35`. -/
theorem C2_counterexample :
    (create_ralph_icon 58 true zeroMeasure).font ≠
      Font.system (spec_round_font_size 58) := by decide

/-- C2 (amended): for every `pixel_dimension`, when the system font loads the
renderer requests it at point size `int(pixel_dimension * 0.6)` — the
truncation (floor) of `0.6` times the dimension, not the nearest integer. -/
theorem C2_font_size :
    ∀ (size : Nat) (ok : Bool) (measure : Font → BBox),
      (create_ralph_icon size ok measure).font =
        if ok then Font.system (size * 6 / 10) else Font.fallback := by
  intro size ok measure
  cases ok <;> rfl

/-- C3: the decorative accent is drawn iff `pixel_dimension ≥ 60`: below the
threshold the accent step is skipped entirely (no commands, hence no covered
pixels, in particular none at size 58); at or above it the three lines are
issued, and at size 60 the pixel `(45, 45)` — inside the bottom-right accent
region — ends up the non-transparent accent color whatever the glyph and
background rasterizers did beneath. -/
theorem C3_accent_threshold :
    (∀ size : Nat, size < 60 → accent_lines size = []) ∧
    (∀ x y : Int, accentCovers 58 x y = false) ∧
    (∀ size : Nat, 60 ≤ size → accent_lines size ≠ []) ∧
    (∀ glyphCov bgCov : Int → Int → Bool,
      pixelAt 60 glyphCov bgCov 45 45 = accent_color ∧
      accent_color.a ≠ 0 ∧ inAccentRegion 60 45 45 = true) := by
  refine ⟨?_, ?_, ?_, ?_⟩
  · intro size h
    simp [accent_lines, Nat.not_le.mpr h]
  · intro x y
    simp [accentCovers, accent_lines]
  · intro size h
    simp [accent_lines, h]
  · intro glyphCov bgCov
    refine ⟨?_, by decide, by decide⟩
    simp [pixelAt, show accentCovers 60 45 45 = true from by decide]

/-- C3 witness: the threshold facts instantiated at sizes 58 and 60. -/
theorem C3_witness :
    accent_lines 58 = [] ∧ accent_lines 60 ≠ [] ∧
    pixelAt 60 (fun _ _ => false) (fun _ _ => false) 45 45 = accent_color :=
  ⟨C3_accent_threshold.1 58 (by decide),
   C3_accent_threshold.2.2.1 60 (by decide),
   (C3_accent_threshold.2.2.2 (fun _ _ => false) (fun _ _ => false)).1⟩

/-- C4: a font-loading failure (`ok = false`) is absorbed silently: the
renderer substitutes the built-in fallback font and still completes every
remaining step — full canvas dimensions, background command, glyph position,
and accent — for every `pixel_dimension`. -/
theorem C4_font_fallback :
    ∀ (size : Nat) (measure : Font → BBox),
      (create_ralph_icon size false measure).font = Font.fallback ∧
      (create_ralph_icon size false measure).width = size ∧
      (create_ralph_icon size false measure).height = size ∧
      (create_ralph_icon size false measure).background = background_cmd size ∧
      (create_ralph_icon size false measure).textPos =
        text_position size (measure Font.fallback) ∧
      (create_ralph_icon size false measure).accent = accent_lines size := by
  intro size measure
  exact ⟨rfl, rfl, rfl, rfl, rfl, rfl⟩

/-- C5: for every `pixel_dimension ≥ 60` the accent is exactly three vertical
line segments with equal horizontal spacing inside the square region of side
`pixel_dimension / 6` whose far corner is inset `pixel_dimension / 12` from
the right and bottom edges; each spans half the region's height, with stroke
width `max(1, pixel_dimension / 40)` and semi-transparent white fill of
alpha 180. -/
theorem C5_accent_geometry :
    ∀ size : Nat, 60 ≤ size →
      accent_lines size =
        [accent_line size 0, accent_line size 1, accent_line size 2] ∧
      (∀ i : Nat, (accent_line size i).x0 = (accent_line size i).x1) ∧
      (∀ i : Nat, (accent_line size i).y1 =
        (accent_line size i).y0 + icon_size size / 2) ∧
      (∀ i : Nat, (accent_line size i).width = max 1 (size / 40)) ∧
      (∀ i : Nat, (accent_line size i).fill = accent_color) ∧
      fork_x size 1 - fork_x size 0 = fork_x size 2 - fork_x size 1 ∧
      icon_x size + icon_size size + size / 12 = size ∧
      icon_y size + icon_size size + size / 12 = size ∧
      icon_size size = size / 6 := by
  intro size h
  refine ⟨?_, fun i => rfl, fun i => rfl, fun i => rfl, fun i => rfl,
    ?_, ?_, ?_, rfl⟩
  · simp [accent_lines, h, List.range_succ]
  · simp [fork_x]
    omega
  · simp [icon_x, icon_size]
    omega
  · simp [icon_y, icon_size]
    omega

/-- C5 witness: the accent geometry instantiated at size 60. -/
theorem C5_witness :
    accent_lines 60 = [accent_line 60 0, accent_line 60 1, accent_line 60 2] ∧
    (accent_line 60 2).width = max 1 (60 / 40) ∧
    icon_x 60 + icon_size 60 + 60 / 12 = 60 :=
  ⟨(C5_accent_geometry 60 (by decide)).1,
   (C5_accent_geometry 60 (by decide)).2.2.2.1 2,
   (C5_accent_geometry 60 (by decide)).2.2.2.2.2.2.1⟩

/-- C6: for every `pixel_dimension` and measured bounding box, the glyph is
anchored at `x = (size − glyph_width) // 2` and
`y = (size − glyph_height) // 2 − bbox_top`, with `//` floor division and the
width and height taken from the box measured at the chosen font. -/
theorem C6_centering :
    ∀ (size : Nat) (ok : Bool) (measure : Font → BBox),
      (create_ralph_icon size ok measure).textPos =
        (((size : Int) - ((measure (choose_font size ok)).x1 -
            (measure (choose_font size ok)).x0)).fdiv 2,
         ((size : Int) - ((measure (choose_font size ok)).y1 -
            (measure (choose_font size ok)).y0)).fdiv 2 -
           (measure (choose_font size ok)).y0) := by
  intro size ok measure
  rfl

/-- C7: the renderer is total on positive dimensions: for every
`pixel_dimension > 0`, any font-load outcome and any glyph metrics, it
returns a finished `size × size` bitmap carrying all drawing steps. -/
theorem C7_no_error :
    ∀ size : Nat, 0 < size →
      ∀ (ok : Bool) (measure : Font → BBox),
        (create_ralph_icon size ok measure).width = size ∧
        (create_ralph_icon size ok measure).height = size ∧
        (create_ralph_icon size ok measure).background = background_cmd size ∧
        (create_ralph_icon size ok measure).accent = accent_lines size := by
  intro size _ ok measure
  exact ⟨rfl, rfl, rfl, rfl⟩

/-- C7 witness: the renderer finishes at the smallest table dimension, 20. -/
theorem C7_witness :
    (create_ralph_icon 20 true zeroMeasure).width = 20 ∧
    (create_ralph_icon 20 true zeroMeasure).height = 20 :=
  ⟨(C7_no_error 20 (by decide) true zeroMeasure).1,
   (C7_no_error 20 (by decide) true zeroMeasure).2.1⟩

/-- C8: the background command is a rounded rectangle over
`[(0,0), (size−1, size−1)]` — the full canvas inset one pixel on the far
edges — filled with the fixed opaque accent color, with corner radius
`size / 8` under integer division: 128 at size 1024 and 2 at size 20. -/
theorem C8_background :
    (∀ (size : Nat) (ok : Bool) (measure : Font → BBox),
      (create_ralph_icon size ok measure).background =
        ⟨0, 0, size - 1, size - 1, size / 8, bg_color⟩) ∧
    bg_color.a = 255 ∧
    (create_ralph_icon 1024 true zeroMeasure).background.radius = 128 ∧
    (create_ralph_icon 20 true zeroMeasure).background.radius = 2 := by
  exact ⟨fun _ _ _ => rfl, rfl, by decide, by decide⟩

/-- C9: the renderer is a deterministic function of the dimension, the
font-load outcome and the glyph metrics — two calls with the same inputs
give identical bitmaps — so any two table entries sharing a pixel dimension
render identical bitmaps (only the filenames differ). -/
theorem C9_deterministic :
    (∀ (size : Nat) (ok : Bool) (measure : Font → BBox),
      create_ralph_icon size ok measure = create_ralph_icon size ok measure) ∧
    (∀ (ok : Bool) (measure : Font → BBox) (d₁ d₂ : Nat) (l₁ l₂ : String),
      (d₁, l₁) ∈ sizes → (d₂, l₂) ∈ sizes → d₁ = d₂ →
      create_ralph_icon d₁ ok measure = create_ralph_icon d₂ ok measure) := by
  refine ⟨fun _ _ _ => rfl, ?_⟩
  intro ok measure d₁ d₂ l₁ l₂ _ _ h
  rw [h]

/-- C9 witness: the table's two 120-pixel entries, `40x40@3x` and `60x60@2x`,
render the same bitmap. -/
theorem C9_witness :
    (120, "40x40@3x") ∈ sizes ∧ (120, "60x60@2x") ∈ sizes ∧
    create_ralph_icon 120 true zeroMeasure =
      create_ralph_icon 120 true zeroMeasure :=
  ⟨by decide, by decide,
   C9_deterministic.2 true zeroMeasure 120 120 "40x40@3x" "60x60@2x"
     (by decide) (by decide) rfl⟩

/-- C10: the claim as stated is false at `pixel_dimension = 1024`: the stroke
width there is `max(1, 1024 / 40) = 25`, so the third line (center offset
`2 * (170 / 4) = 84`) paints columns out to offset `84 + 12 = 96` — past the
region midpoint `170 / 2 = 85` — and the pixel at `(865, 769)` is an
accent-covered pixel of the region's right half. -/
theorem C10_counterexample :
    accentCovers 1024 865 769 = true ∧
    inAccentRegion 1024 865 769 = true ∧
    (icon_size 1024 : Int) / 2 < 865 - (icon_x 1024 : Int) := by
  exact ⟨by decide, by decide, by decide⟩

/-- C10 (amended): for every `pixel_dimension ≥ 60` the three accent line
centers are at offsets `0`, `region_side/4` and `2*(region_side/4)` from the
region's left edge, and these center offsets never exceed half the region
side; but the stroke width `max(1, pixel_dimension/40)` can paint pixels past
the midpoint, so the region's right half is not in general accent-free. -/
theorem C10_line_offsets :
    ∀ size : Nat, 60 ≤ size →
      (∀ i : Nat, i < 3 →
        (accent_line size i).x0 = icon_x size + (icon_size size / 4) * i) ∧
      (∀ i : Nat, i < 3 →
        (icon_size size / 4) * i ≤ icon_size size / 2) := by
  intro size _
  refine ⟨fun i _ => rfl, fun i hi => ?_⟩
  interval_cases i <;> omega

/-- C10 witness: the offset facts instantiated at size 60, third line. -/
theorem C10_witness :
    (accent_line 60 2).x0 = icon_x 60 + (icon_size 60 / 4) * 2 ∧
    (icon_size 60 / 4) * 2 ≤ icon_size 60 / 2 :=
  ⟨(C10_line_offsets 60 (by decide)).1 2 (by decide),
   (C10_line_offsets 60 (by decide)).2 2 (by decide)⟩

end GenerateIcon
